import Mathlib

/-
Shallow embedding of the patron instrumentation clients:
  * src/unnamed/part_000  — package sqs  (AWS SQS publisher with tracing/metrics)
  * src/unnamed/part_001  — package v2   (AMQP publisher with tracing/metrics)
  * src/client/sql/sql.go — package sql  (instrumented database/sql facades)

External collaborators (the AWS/AMQP drivers, the opentracing tracer) are
modelled as oracle parameters: a wrapped call receives the outcome of the
underlying driver call and of trace-context injection as explicit arguments,
and returns, besides the Go return values, the list of side effects the call
performs (messages sent, metric observations, span completions).
-/

set_option autoImplicit false

/-- Go error values as produced by this code base: `errors.New msg` creates a
fresh error, and `fmt.Errorf("pre: %w", cause)` wraps a cause under a prefix,
keeping the cause inspectable via `errors.Unwrap`. -/
inductive GoErr where
  | new (msg : String)
  | wrap (pre : String) (cause : GoErr)
deriving DecidableEq, Repr

/-- `errors.Unwrap`: the cause of a `%w`-wrapped error, `none` otherwise. -/
def GoErr.unwrap : GoErr → Option GoErr
  | .new _ => none
  | .wrap _ cause => some cause

/-- Whether an error is a `%w` wrapping (has an inspectable cause). -/
def GoErr.isWrap : GoErr → Bool
  | .new _ => false
  | .wrap _ _ => true

/-- The `Error()` string of a Go error in this model. -/
def GoErr.message : GoErr → String
  | .new msg => msg
  | .wrap pre cause => pre ++ ": " ++ cause.message

/-- `strconv.FormatBool`. -/
def formatBool : Bool → String
  | true => "true"
  | false => "false"

/-- Go map assignment `m[k] = v` on an association-list model of a
`map[string]V`: overwrite the entry for `k` if present, append it otherwise. -/
def setKV {α : Type} : List (String × α) → String → α → List (String × α)
  | [], k, v => [(k, v)]
  | (k0, v0) :: rest, k, v =>
    if k0 = k then (k, v) :: rest else (k0, v0) :: setKV rest k v

/-- Go map read `m[k]` (the `ok` form): the value stored under `k`, if any. -/
def lookupKV {α : Type} (m : List (String × α)) (k : String) : Option α :=
  (m.find? (fun p => p.1 = k)).map (fun p => p.2)

/-- The final value a sequence of carrier writes leaves under key `k`
(later writes win), i.e. the content of the Go map the writes build. -/
def lastWrite : List (String × String) → String → Option String
  | [], _ => none
  | (k0, v0) :: rest, k =>
    match lastWrite rest k with
    | some v => some v
    | none => if k0 = k then some v0 else none

namespace goregex

/-
A leftmost-first (Perl-style, as implemented by Go's regexp package for
FindStringSubmatch) matcher for the exact constructs used by the DSN pattern
in src/client/sql/sql.go: character classes, concatenation, greedy and lazy
star over a character class, greedy option, and numbered capturing groups.
The pattern contains no alternation and every star has a single-character
body, so star bodies are restricted to character classes.
-/

/-- A single-character matcher: `.` (any character except newline, Go default),
a literal character, or a negated class `[^…]`. -/
inductive CharClass where
  | any
  | lit (c : Char)
  | notIn (cs : List Char)
deriving DecidableEq, Repr

def CharClass.matches : CharClass → Char → Bool
  | .any, c => c ≠ '\n'
  | .lit a, c => c = a
  | .notIn cs, c => ¬ cs.contains c

/-- Regular expressions over the constructs appearing in the DSN pattern.
`starCls greedy c` is `c*` (greedy) or `c*?` (lazy); `opt` is the greedy `(…)?`;
`group i r` is the capturing group numbered `i` in source order. -/
inductive Regex where
  | eps
  | cls (c : CharClass)
  | cat (a b : Regex)
  | starCls (greedy : Bool) (c : CharClass)
  | opt (r : Regex)
  | group (idx : Nat) (r : Regex)
deriving DecidableEq, Repr

/-- Capture assignments recorded along the successful match path; the most
recent assignment for a group is the first occurrence in the list. -/
abbrev Caps := List (Nat × String)

/-- The prefix of `s` consumed to reach its suffix `s1`, as a string. -/
def consumed (s s1 : List Char) : String :=
  String.mk (s.take (s.length - s1.length))

/-- Greedy star over a character class, in continuation-passing style:
consume as many matching characters as possible, backtracking one at a time
when the continuation fails. -/
def starGreedy (c : CharClass) : List Char → Caps → (List Char → Caps → Option Caps) → Option Caps
  | [], caps, k => k [] caps
  | ch :: rest, caps, k =>
    if c.matches ch then
      match starGreedy c rest caps k with
      | some r => some r
      | none => k (ch :: rest) caps
    else k (ch :: rest) caps

/-- Lazy star over a character class: try the continuation first, consuming a
character only when it fails. -/
def starLazy (c : CharClass) : List Char → Caps → (List Char → Caps → Option Caps) → Option Caps
  | s, caps, k =>
    match k s caps with
    | some r => some r
    | none =>
      match s with
      | [] => none
      | ch :: rest => if c.matches ch then starLazy c rest caps k else none

/-- The backtracking matcher, leftmost-first: tries alternatives in the order
Go's regexp package does (greedy pieces longest first, lazy pieces shortest
first, options present first), so the first success is Go's match. -/
def matchRe : Regex → List Char → Caps → (List Char → Caps → Option Caps) → Option Caps
  | .eps, s, caps, k => k s caps
  | .cls c, s, caps, k =>
    match s with
    | [] => none
    | ch :: rest => if c.matches ch then k rest caps else none
  | .cat a b, s, caps, k => matchRe a s caps fun s1 c1 => matchRe b s1 c1 k
  | .starCls true c, s, caps, k => starGreedy c s caps k
  | .starCls false c, s, caps, k => starLazy c s caps k
  | .opt r, s, caps, k =>
    match matchRe r s caps k with
    | some res => some res
    | none => k s caps
  | .group i r, s, caps, k =>
    matchRe r s caps fun s1 c1 => k s1 ((i, consumed s s1) :: c1)

/-- `regexp.FindStringSubmatch` for a pattern anchored by `^…$`: the whole
input must be consumed; returns the captures of the first (leftmost-first)
match, `none` when the pattern does not match. -/
def findStringSubmatch (r : Regex) (s : String) : Option Caps :=
  matchRe r s.toList [] fun rest caps =>
    match rest with
    | [] => some caps
    | _ :: _ => none

/-- The submatch reported for group `i`: the most recent capture, or `""` for
a group that did not participate in the match (Go reports `""` there). -/
def lookupCap (caps : Caps) (i : Nat) : String :=
  ((caps.find? (fun p => p.1 = i)).map (fun p => p.2)).getD ""

end goregex

namespace sql

open goregex

/-- DSNInfo from src/client/sql/sql.go. -/
structure DSNInfo where
  Driver : String
  DBName : String
  Address : String
  User : String
  Protocol : String
deriving DecidableEq, Repr

/-- The DSN pattern of `parseDSN`, group numbers in source order:
1 = driver, 2 = username, 3 = the unnamed password group, 4 = protocol,
5 = address, 6 = dbname, 7 = params. Transcribes
`^(?P<driver>.*:\/\/)?(?:(?P<username>.*?)(?::(.*))?@)?(?:(?P<protocol>[^\(]*)(?:\((?P<address>[^\)]*)\))?)?\/(?P<dbname>.*?)(?:\?(?P<params>[^\?]*))?$`. -/
def dsnPattern : Regex :=
  -- (?P<driver>.*:\/\/)?
  .cat (.opt (.group 1 (.cat (.starCls true .any)
        (.cat (.cls (.lit ':')) (.cat (.cls (.lit '/')) (.cls (.lit '/')))))))
  -- (?:(?P<username>.*?)(?::(.*))?@)?
  (.cat (.opt (.cat (.group 2 (.starCls false .any))
        (.cat (.opt (.cat (.cls (.lit ':')) (.group 3 (.starCls true .any))))
          (.cls (.lit '@')))))
  -- (?:(?P<protocol>[^\(]*)(?:\((?P<address>[^\)]*)\))?)?
  (.cat (.opt (.cat (.group 4 (.starCls true (.notIn ['('])))
        (.opt (.cat (.cls (.lit '('))
          (.cat (.group 5 (.starCls true (.notIn [')']))) (.cls (.lit ')')))))))
  -- \/(?P<dbname>.*?)(?:\?(?P<params>[^\?]*))?$
  (.cat (.cls (.lit '/'))
  (.cat (.group 6 (.starCls false .any))
    (.opt (.cat (.cls (.lit '?')) (.group 7 (.starCls true (.notIn ['?'])))))))))

/-- `parseDSN` from src/client/sql/sql.go: run the pattern, then fill each
named field from its group's submatch; on no match the zero-valued `DSNInfo`
(all fields empty) is returned, since the assignment loop never runs. -/
def parseDSN (dsn : String) : DSNInfo :=
  match findStringSubmatch dsnPattern dsn with
  | none => ⟨"", "", "", "", ""⟩
  | some caps =>
    { Driver := lookupCap caps 1
      DBName := lookupCap caps 6
      Address := lookupCap caps 5
      User := lookupCap caps 2
      Protocol := lookupCap caps 4 }

end sql

namespace sqs

/- Embedding of src/unnamed/part_000 (package sqs). The AWS client behind
`sqsiface.SQSAPI` and the opentracing tracer are oracles: `sendMessage` gives
the outcome of `SendMessageWithContext` per input, and `inj` gives the
key/value writes `span.Tracer().Inject` performs on the carrier (in call
order), or the error it fails with. -/

/-- The opaque AWS API handle; `New` only checks it against nil. -/
abbrev SQSAPI := Unit

/-- `attributeDataTypeString`. -/
def attributeDataTypeString : String := "String"

/-- `sqs.MessageAttributeValue` (the fields this code writes). -/
structure MessageAttributeValue where
  DataType : Option String
  StringValue : Option String
deriving DecidableEq, Repr

/-- `sqs.SendMessageInput` (the fields this code reads or writes); a nil
`MessageAttributes` map is `none`. -/
structure SendMessageInput where
  QueueUrl : String
  MessageAttributes : Option (List (String × MessageAttributeValue))
deriving DecidableEq, Repr

/-- `sqs.SendMessageOutput` (the field this code reads). -/
structure SendMessageOutput where
  MessageId : Option String
deriving DecidableEq, Repr

/-- The `Publisher` struct. -/
structure Publisher where
  api : Option SQSAPI
deriving DecidableEq, Repr

/-- One metric observation of the `client_sqs_publish_duration_seconds`
histogram: label values for `queue` and `success` as the code writes them. -/
structure SQSObservation where
  queue : String
  success : String
deriving DecidableEq, Repr

/-- Outcome of `New`: the returned publisher and error, plus the spans
started and metric observations performed during construction (the source
performs none on any path). -/
structure NewOutcome where
  publisher : Publisher
  err : Option GoErr
  spansStarted : List String
  observations : List SQSObservation
deriving DecidableEq, Repr

/-- `New` from src/unnamed/part_000: a nil api handle is rejected with a
configuration error; no span or metric activity happens either way. -/
def New (api : Option SQSAPI) : NewOutcome :=
  match api with
  | none => { publisher := ⟨none⟩, err := some (.new "missing api"), spansStarted := [], observations := [] }
  | some a => { publisher := ⟨some a⟩, err := none, spansStarted := [], observations := [] }

/-- `injectHeaders` from src/unnamed/part_000: on injection failure return the
wrapped error without touching the message; on success create the attribute
map if nil and store every carrier entry as a String-typed attribute. -/
def injectHeaders (inj : Except GoErr (List (String × String)))
    (input : SendMessageInput) : Except GoErr SendMessageInput :=
  match inj with
  | .error e => .error (.wrap "failed to inject tracing headers" e)
  | .ok carrier =>
    let attrs := input.MessageAttributes.getD []
    let attrs1 := carrier.foldl
      (fun m kv => setKV m kv.1 ⟨some attributeDataTypeString, some kv.2⟩) attrs
    .ok { input with MessageAttributes := some attrs1 }

/-- `observePublish` from src/unnamed/part_000: completes the span and records
one histogram observation whose success label is
`strconv.FormatBool(err != nil)`. -/
def observePublish (queue : String) (err : Option GoErr) : SQSObservation :=
  { queue := queue, success := formatBool err.isSome }

/-- Outcome of `Publish`: the returned `(messageID, err)` pair plus the side
effects — the `SendMessageWithContext` invocations made, the metric
observations recorded, and the span completions (with their error). -/
structure PublishOutcome where
  messageID : String
  err : Option GoErr
  sends : List SendMessageInput
  observations : List SQSObservation
  spanCompletes : List (Option GoErr)
deriving DecidableEq, Repr

/-- The message as `Publish` hands it to `SendMessageWithContext`: trace
headers injected into the attributes on success, untouched when injection
fails (the failure is only logged). -/
def sentMessage (inj : Except GoErr (List (String × String)))
    (msg : SendMessageInput) : SendMessageInput :=
  match injectHeaders inj msg with
  | .ok m => m
  | .error _ => msg

/-- `Publish` from src/unnamed/part_000: inject trace headers (best effort),
send, observe exactly once with the send error, then wrap a send failure,
reject a nil `MessageId`, and otherwise return the message id. -/
def Publish (inj : Except GoErr (List (String × String)))
    (sendMessage : SendMessageInput → Except GoErr SendMessageOutput)
    (msg : SendMessageInput) : PublishOutcome :=
  let msg1 := sentMessage inj msg
  let res := sendMessage msg1
  let e : Option GoErr := match res with
    | .error err => some err
    | .ok _ => none
  let obs := observePublish msg1.QueueUrl e
  let ret : String × Option GoErr := match res with
    | .error err => ("", some (.wrap "failed to publish message" err))
    | .ok out =>
      match out.MessageId with
      | none => ("", some (.new "tried to publish a message but no message ID returned"))
      | some mid => (mid, none)
  { messageID := ret.1, err := ret.2,
    sends := [msg1], observations := [obs], spanCompletes := [e] }

end sqs

namespace amqp

/- Embedding of src/unnamed/part_001 (package v2, the AMQP publisher). The
AMQP library (`amqp.Dial`, `conn.Channel`, `channel.Publish`) and the tracer
are oracles passed in explicitly. Header values written by this code are
strings (trace-context fields and the correlation id), so `amqp.Table` is
modelled as a string-to-string map. -/

abbrev Config := Unit
abbrev Connection := Unit
abbrev Channel := Unit

/-- `amqp.Publishing` (the field this code reads or writes); a nil `Headers`
table is `none`. -/
structure Publishing where
  Headers : Option (List (String × String))
deriving DecidableEq, Repr

/-- The `Publisher` struct. -/
structure Publisher where
  cfg : Option Config := none
  connection : Option Connection := none
  channel : Option Channel := none
deriving DecidableEq, Repr

/-- `OptionFunc`: mutates the publisher under construction or fails. -/
def OptionFunc := Publisher → Except GoErr Publisher

/-- Modelled from the spec: the repository's error-aggregation helper
(`patronerrors.Aggregate`, not under src/) combines the non-nil errors among
its arguments into one error, returning nil when all are nil. Its exact
message shape is unobserved by the claims. -/
def aggregate (es : List (Option GoErr)) : Option GoErr :=
  match es.filterMap id with
  | [] => none
  | e :: rest => some (.new (String.intercalate "\n" ((e :: rest).map GoErr.message)))

/-- Modelled from the spec: the fixed correlation-id header key written by the
repository's correlation package (not under src/); §4.4 of the spec only says
a correlation identifier is stamped as its own header field. -/
def correlationHeaderID : String := "X-Correlation-Id"

/-- One metric observation of the `client_amqp_publish_duration_seconds`
histogram: label values for `exchange` and `success` as the code writes them. -/
structure AMQPObservation where
  exchange : String
  success : String
deriving DecidableEq, Repr

/-- Outcome of `New`: the returned publisher (nil on failure) and error, plus
span/metric activity during construction (the source performs none). -/
structure NewOutcome where
  publisher : Option Publisher
  err : Option GoErr
  spansStarted : List String
  observations : List AMQPObservation
deriving Repr

/-- Applies the option functions in order, stopping at the first failure, as
the constructor's loop does. -/
def applyOptions : List OptionFunc → Publisher → Except GoErr Publisher
  | [], pub => .ok pub
  | o :: rest, pub =>
    match o pub with
    | .error e => .error e
    | .ok pub1 => applyOptions rest pub1

/-- `New` from src/unnamed/part_001: an empty URL is rejected first with a
configuration error; then options run, the connection is dialed (with or
without a config), a channel is opened (closing the connection on failure),
and the publisher is assembled. No span or metric activity on any path. -/
def New (dial : Option Config → Except GoErr Connection)
    (openChannel : Connection → Except GoErr Channel)
    (connClose : Connection → Option GoErr)
    (url : String) (oo : List OptionFunc) : NewOutcome :=
  if url = "" then
    { publisher := none, err := some (.new "url is required"), spansStarted := [], observations := [] }
  else
    match applyOptions oo {} with
    | .error e =>
      { publisher := none, err := some e, spansStarted := [], observations := [] }
    | .ok pub =>
      match dial pub.cfg with
      | .error e =>
        { publisher := none, err := some (.wrap "failed to open connection" e),
          spansStarted := [], observations := [] }
      | .ok conn =>
        match openChannel conn with
        | .error e =>
          { publisher := none,
            err := aggregate [some (.wrap "failed to open channel" e), connClose conn],
            spansStarted := [], observations := [] }
        | .ok ch =>
          { publisher := some { pub with connection := some conn, channel := some ch },
            err := none, spansStarted := [], observations := [] }

/-- `observePublish` from src/unnamed/part_001: completes the span and records
one histogram observation whose success label is
`strconv.FormatBool(err != nil)`. -/
def observePublish (exchange : String) (err : Option GoErr) : AMQPObservation :=
  { exchange := exchange, success := formatBool err.isSome }

/-- One invocation of the underlying `channel.Publish`. -/
structure PublishCall where
  exchange : String
  key : String
  mandatory : Bool
  immediate : Bool
  msg : Publishing
deriving DecidableEq, Repr

/-- Outcome of `Publish`: the returned error plus the side effects — the
`channel.Publish` invocations made, the metric observations recorded, and the
span completions. -/
structure PublishOutcome where
  err : Option GoErr
  publishes : List PublishCall
  observations : List AMQPObservation
  spanCompletes : List (Option GoErr)
deriving DecidableEq, Repr

/-- The message as `Publish` hands it to `channel.Publish`: the headers table
is created if nil, the carrier (which is the headers table itself, by
reference) receives the tracer's writes when injection succeeds (a failure is
only logged), and the correlation-id header is stamped afterwards. -/
def sentPublishing (inj : Except GoErr (List (String × String))) (corrID : String)
    (msg : Publishing) : Publishing :=
  let h0 := msg.Headers.getD []
  let h1 := match inj with
    | .ok carrier => carrier.foldl (fun m kv => setKV m kv.1 kv.2) h0
    | .error _ => h0
  { Headers := some (setKV h1 correlationHeaderID corrID) }

/-- `Publish` from src/unnamed/part_001: prepare the outgoing message
(injection is best effort), publish, observe exactly once with the publish
error, and wrap a publish failure. -/
def Publish (inj : Except GoErr (List (String × String))) (corrID : String)
    (channelPublish : PublishCall → Option GoErr)
    (exchange key : String) (mandatory immediate : Bool)
    (msg : Publishing) : PublishOutcome :=
  let call : PublishCall :=
    { exchange := exchange, key := key, mandatory := mandatory,
      immediate := immediate, msg := sentPublishing inj corrID msg }
  let e := channelPublish call
  let obs := observePublish exchange e
  let reterr : Option GoErr := match e with
    | some err => some (.wrap "failed to publish message" err)
    | none => none
  { err := reterr, publishes := [call], observations := [obs], spanCompletes := [e] }

end amqp

namespace sql

/- Embedding of the facade types and instrumented methods of
src/client/sql/sql.go. The underlying database/sql handles are opaque
(`Unit`), and each method receives the outcome of its one underlying driver
call as an explicit `Except` argument. -/

def component : String := "sql"

def dbtype : String := "RDBMS"

/-- The embedded `connInfo` struct; the defaults are Go's zero values, used
when a composite literal omits the field. -/
structure connInfo where
  «instance» : String := ""
  user : String := ""
deriving DecidableEq, Repr

/-- The tags `connInfo.startSpan` sets on the span it starts. -/
structure SQLSpan where
  opName : String
  Component : String
  DBType : String
  DBInstance : String
  DBUser : String
  DBStatement : String
deriving DecidableEq, Repr

/-- `connInfo.startSpan`: starts a span named after the operation, tagged with
the component and db-type constants, the facade's instance and user, and the
statement text. -/
def connInfo.startSpan (c : connInfo) (opName stmt : String) : SQLSpan :=
  { opName := opName, Component := component, DBType := dbtype,
    DBInstance := c.«instance», DBUser := c.user, DBStatement := stmt }

/-- One metric observation of the `client_sql_cmd_duration_seconds`
histogram: label values for `op` and `success` as the code writes them. -/
structure SQLObservation where
  op : String
  success : String
deriving DecidableEq, Repr

/-- `observeDuration` from src/client/sql/sql.go: completes the span and
records one histogram observation whose success label is
`strconv.FormatBool(err != nil)`. -/
def observeDuration (op : String) (err : Option GoErr) : SQLObservation :=
  { op := op, success := formatBool err.isSome }

/-- `Conn` wraps a `*sql.Conn` (opaque) and embeds `connInfo`. -/
structure Conn extends connInfo where
  conn : Unit := ()
deriving DecidableEq, Repr

/-- `DB` wraps a `*sql.DB` (opaque) and embeds `connInfo`. -/
structure DB extends connInfo where
  db : Unit := ()
deriving DecidableEq, Repr

/-- `Stmt` wraps a `*sql.Stmt` (opaque), embeds `connInfo`, and keeps the
query text. -/
structure Stmt extends connInfo where
  query : String := ""
  stmt : Unit := ()
deriving DecidableEq, Repr

/-- `Tx` wraps a `*sql.Tx` (opaque) and embeds `connInfo`. -/
structure Tx extends connInfo where
  tx : Unit := ()
deriving DecidableEq, Repr

/-- Outcome of one instrumented facade method: the returned value and error,
the span it started, and the side effects (metric observations and span
completions). -/
structure CallOutcome (α : Type) where
  value : α
  err : Option GoErr
  span : SQLSpan
  observations : List SQLObservation
  spanCompletes : List (Option GoErr)
deriving Repr

/-- The error half of an `Except`, mirroring Go's `err` return value. -/
def errOf (res : Except GoErr Unit) : Option GoErr :=
  match res with
  | .error e => some e
  | .ok _ => none

/-- `DB.BeginTx`: on success the child `Tx` is built as
`&Tx{tx: tx, connInfo: connInfo{instance: db.instance, user: db.user}}`;
the driver error is returned unchanged. -/
def DB.BeginTx (db : DB) (beginTx : Except GoErr Unit) : CallOutcome (Option Tx) :=
  let op := "db.BeginTx"
  let sp := db.toconnInfo.startSpan op ""
  let e := errOf beginTx
  let value : Option Tx := match beginTx with
    | .error _ => none
    | .ok tx => some { tx := tx, toconnInfo := { «instance» := db.«instance», user := db.user } }
  { value := value, err := e, span := sp,
    observations := [observeDuration op e], spanCompletes := [e] }

/-- `DB.Conn`: on success the child `Conn` is built as
`&Conn{conn: conn, connInfo: db.connInfo}`; the driver error is returned
unchanged. -/
def DB.Conn (db : DB) (getConn : Except GoErr Unit) : CallOutcome (Option Conn) :=
  let op := "db.Conn"
  let sp := db.toconnInfo.startSpan op ""
  let e := errOf getConn
  let value : Option sql.Conn := match getConn with
    | .error _ => none
    | .ok conn => some { conn := conn, toconnInfo := db.toconnInfo }
  { value := value, err := e, span := sp,
    observations := [observeDuration op e], spanCompletes := [e] }

/-- `DB.Prepare`: on success the child `Stmt` is built as
`&Stmt{stmt: stmt, connInfo: db.connInfo, query: query}`; the driver error is
returned unchanged. -/
def DB.Prepare (db : DB) (query : String) (prepare : Except GoErr Unit) :
    CallOutcome (Option Stmt) :=
  let op := "db.Prepare"
  let sp := db.toconnInfo.startSpan op query
  let e := errOf prepare
  let value : Option Stmt := match prepare with
    | .error _ => none
    | .ok stmt => some { stmt := stmt, toconnInfo := db.toconnInfo, query := query }
  { value := value, err := e, span := sp,
    observations := [observeDuration op e], spanCompletes := [e] }

/-- `DB.Exec`: the driver result and error are returned unchanged (`return
nil, err` on failure, `return res, nil` on success). -/
def DB.Exec (db : DB) (query : String) (execContext : Except GoErr Unit) :
    CallOutcome (Option Unit) :=
  let op := "db.Exec"
  let sp := db.toconnInfo.startSpan op query
  let e := errOf execContext
  let value : Option Unit := match execContext with
    | .error _ => none
    | .ok res => some res
  { value := value, err := e, span := sp,
    observations := [observeDuration op e], spanCompletes := [e] }

/-- `Conn.BeginTx`: on success the child `Tx` is built as `&Tx{tx: tx}`, whose
`connInfo` is the Go zero value (the structure defaults); the driver error is
returned unchanged. -/
def Conn.BeginTx (c : Conn) (beginTx : Except GoErr Unit) : CallOutcome (Option Tx) :=
  let op := "conn.BeginTx"
  let sp := c.toconnInfo.startSpan op ""
  let e := errOf beginTx
  let value : Option Tx := match beginTx with
    | .error _ => none
    | .ok tx => some { tx := tx }
  { value := value, err := e, span := sp,
    observations := [observeDuration op e], spanCompletes := [e] }

/-- `Conn.Prepare`: on success the child `Stmt` is built as `&Stmt{stmt:
stmt}`, whose `connInfo` and `query` are the Go zero values; the driver error
is returned unchanged. -/
def Conn.Prepare (c : Conn) (query : String) (prepare : Except GoErr Unit) :
    CallOutcome (Option Stmt) :=
  let op := "conn.Prepare"
  let sp := c.toconnInfo.startSpan op query
  let e := errOf prepare
  let value : Option Stmt := match prepare with
    | .error _ => none
    | .ok stmt => some { stmt := stmt }
  { value := value, err := e, span := sp,
    observations := [observeDuration op e], spanCompletes := [e] }

/-- `Tx.Prepare`: on success the child `Stmt` is built as `&Stmt{stmt:
stmt}`, whose `connInfo` and `query` are the Go zero values; the driver error
is returned unchanged. -/
def Tx.Prepare (tx : Tx) (query : String) (prepare : Except GoErr Unit) :
    CallOutcome (Option Stmt) :=
  let op := "tx.Prepare"
  let sp := tx.toconnInfo.startSpan op query
  let e := errOf prepare
  let value : Option Stmt := match prepare with
    | .error _ => none
    | .ok stmt => some { stmt := stmt }
  { value := value, err := e, span := sp,
    observations := [observeDuration op e], spanCompletes := [e] }

/-- `Tx.Stmt`: the child `Stmt` is built as `&Stmt{stmt: …, connInfo:
tx.connInfo, query: stmt.query}` and the call cannot fail (`observeDuration`
is invoked with nil). -/
def Tx.Stmt (tx : Tx) (stmt : Stmt) (stmtContext : Unit) : CallOutcome Stmt :=
  let op := "tx.Stmt"
  let sp := tx.toconnInfo.startSpan op stmt.query
  { value := { stmt := stmtContext, toconnInfo := tx.toconnInfo, query := stmt.query },
    err := none, span := sp,
    observations := [observeDuration op none], spanCompletes := [none] }

end sql

/-! ### Helper lemmas about the Go-map model -/

theorem lookupKV_setKV {α : Type} (m : List (String × α)) (k k' : String) (v : α) :
    lookupKV (setKV m k v) k' = if k' = k then some v else lookupKV m k' := by
  induction m with
  | nil =>
    by_cases h : k' = k
    · subst h
      simp [setKV, lookupKV, List.find?]
    · have h2 : ¬ k = k' := fun hc => h hc.symm
      simp [setKV, lookupKV, List.find?, h, h2]
  | cons hd tl ih =>
    obtain ⟨k0, v0⟩ := hd
    by_cases h0 : k0 = k
    · subst h0
      by_cases h : k' = k0 <;> simp [setKV, lookupKV, List.find?, h, Eq.comm]
    · by_cases h : k' = k
      · subst h
        simp only [setKV, if_neg h0]
        have hk0 : ¬ k0 = k' := fun hc => h0 hc
        simp [lookupKV, List.find?, hk0, Eq.comm] at ih ⊢
        simpa using ih
      · simp only [setKV, if_neg h0]
        by_cases hk0 : k0 = k'
        · simp [lookupKV, List.find?, hk0, h]
        · have : ¬ k0 = k' := hk0
          simp [lookupKV, List.find?, this, Eq.comm] at ih ⊢
          simpa [h] using ih

theorem lookupKV_foldl_setKV {α : Type} (f : String → α) (c : List (String × String))
    (m : List (String × α)) (k : String) :
    lookupKV (c.foldl (fun acc kv => setKV acc kv.1 (f kv.2)) m) k
      = match lastWrite c k with
        | some v => some (f v)
        | none => lookupKV m k := by
  induction c generalizing m with
  | nil => simp [lastWrite]
  | cons hd tl ih =>
    obtain ⟨k0, v0⟩ := hd
    simp only [List.foldl_cons, lastWrite]
    rw [ih]
    cases h : lastWrite tl k with
    | some v => simp
    | none =>
      by_cases hk : k = k0
      · subst hk
        simp [lookupKV_setKV]
      · have : ¬ k0 = k := fun hc => hk hc.symm
        simp [lookupKV_setKV, hk, this]

/-! ### Claim theorems -/

/-- C1: the claim says every wrapped call records exactly one histogram
observation whose success label is "true" when the underlying call returned
no error and "false" when it returned an error. The code computes the label
as `strconv.FormatBool(err != nil)`, inverting it: at these concrete calls a
successful SQS publish, AMQP publish and SQL exec each record exactly one
observation labelled "false", and a failing one records "true". -/
theorem c1_success_label_inverted_at_concrete_calls :
    (sqs.Publish (.ok []) (fun _ => .ok ⟨some "abc-123"⟩) ⟨"q1", none⟩).observations
        = [{ queue := "q1", success := "false" }] ∧
    (sqs.Publish (.ok []) (fun _ => .error (.new "boom")) ⟨"q1", none⟩).observations
        = [{ queue := "q1", success := "true" }] ∧
    (amqp.Publish (.ok []) "cid" (fun _ => none) "ex" "rk" false false ⟨none⟩).observations
        = [{ exchange := "ex", success := "false" }] ∧
    (amqp.Publish (.ok []) "cid" (fun _ => some (.new "boom")) "ex" "rk" false false ⟨none⟩).observations
        = [{ exchange := "ex", success := "true" }] ∧
    (sql.DB.Exec ⟨⟨"db1", "u"⟩, ()⟩ "SELECT 1" (.ok ())).observations
        = [{ op := "db.Exec", success := "false" }] ∧
    (sql.DB.Exec ⟨⟨"db1", "u"⟩, ()⟩ "SELECT 1" (.error (.new "boom"))).observations
        = [{ op := "db.Exec", success := "true" }] := by
  decide

/-- C2: the claim says every child facade inherits the parent's instance/user
identity unchanged. The code does copy it in `DB.BeginTx`, `DB.Conn` and
`DB.Prepare` (and `Tx.Stmt`), but `Conn.BeginTx`, `Conn.Prepare` and
`Tx.Prepare` build the child as `&Tx{tx: tx}` / `&Stmt{stmt: stmt}`, leaving
the Go zero value: a parent with identity ("inst", "usr") yields children
with identity ("", ""). -/
theorem c2_child_facades_from_conn_and_tx_lose_identity :
    ((sql.Conn.BeginTx ⟨⟨"inst", "usr"⟩, ()⟩ (.ok ())).value.map
        (fun t => (t.«instance», t.user))) = some ("", "") ∧
    ((sql.Conn.Prepare ⟨⟨"inst", "usr"⟩, ()⟩ "SELECT 1" (.ok ())).value.map
        (fun s => (s.«instance», s.user))) = some ("", "") ∧
    ((sql.Tx.Prepare ⟨⟨"inst", "usr"⟩, ()⟩ "SELECT 1" (.ok ())).value.map
        (fun s => (s.«instance», s.user))) = some ("", "") ∧
    ((sql.DB.BeginTx ⟨⟨"inst", "usr"⟩, ()⟩ (.ok ())).value.map
        (fun t => (t.«instance», t.user))) = some ("inst", "usr") ∧
    ((sql.DB.Conn ⟨⟨"inst", "usr"⟩, ()⟩ (.ok ())).value.map
        (fun c => (c.«instance», c.user))) = some ("inst", "usr") ∧
    ((sql.DB.Prepare ⟨⟨"inst", "usr"⟩, ()⟩ "SELECT 1" (.ok ())).value.map
        (fun s => (s.«instance», s.user))) = some ("inst", "usr") := by
  decide

/-- C3 counterexample: the claim says every SQL facade method returns a
wrapped, operation-prefixed error preserving the driver error as a cause.
`DB.Exec` on a failing driver call returns the driver error itself,
unwrapped: it is `errors.New "boom"` verbatim, with no inspectable cause. -/
theorem c3_sql_exec_returns_driver_error_unwrapped :
    (sql.DB.Exec ⟨⟨"db1", "u"⟩, ()⟩ "SELECT 1" (.error (.new "boom"))).err
        = some (.new "boom") ∧
    ((sql.DB.Exec ⟨⟨"db1", "u"⟩, ()⟩ "SELECT 1" (.error (.new "boom"))).err.map
        GoErr.isWrap) = some false := by
  decide

/-- C3 (amended): a failing SQS or AMQP publish returns the driver error
wrapped under the operation-scoped prefix "failed to publish message", with
the original error inspectable via Unwrap; the SQL facade methods — every
error-returning facade method embedded here: DB.Exec, DB.BeginTx, DB.Conn,
DB.Prepare, Conn.BeginTx, Conn.Prepare, Tx.Prepare — return the driver error
to the caller unchanged, without wrapping. -/
theorem c3_publishers_wrap_sql_returns_unchanged
    (e : GoErr) (inj : Except GoErr (List (String × String)))
    (msg : sqs.SendMessageInput) (corrID exch key query : String)
    (mand imm : Bool) (pm : amqp.Publishing)
    (db : sql.DB) (conn : sql.Conn) (tx : sql.Tx) :
    (sqs.Publish inj (fun _ => .error e) msg).err
        = some (.wrap "failed to publish message" e) ∧
    (amqp.Publish inj corrID (fun _ => some e) exch key mand imm pm).err
        = some (.wrap "failed to publish message" e) ∧
    GoErr.unwrap (.wrap "failed to publish message" e) = some e ∧
    (sql.DB.Exec db query (.error e)).err = some e ∧
    (sql.DB.BeginTx db (.error e)).err = some e ∧
    (sql.DB.Conn db (.error e)).err = some e ∧
    (sql.DB.Prepare db query (.error e)).err = some e ∧
    (sql.Conn.BeginTx conn (.error e)).err = some e ∧
    (sql.Conn.Prepare conn query (.error e)).err = some e ∧
    (sql.Tx.Prepare tx query (.error e)).err = some e :=
  ⟨rfl, rfl, rfl, rfl, rfl, rfl, rfl, rfl, rfl, rfl⟩

/-- C7: `parseDSN` on `"user:pass@tcp(localhost:3306)/mydb?x=1"` extracts
DBName "mydb", User "user", Address "localhost:3306" and Protocol "tcp"
(and an empty Driver, as the input has no driver prefix). -/
theorem c7_parse_dsn_example :
    sql.parseDSN "user:pass@tcp(localhost:3306)/mydb?x=1"
      = { Driver := "", DBName := "mydb", Address := "localhost:3306",
          User := "user", Protocol := "tcp" } := by
  decide

/-- C10: `parseDSN` is total (it is a plain function in this embedding, and
the source handles a nil `FindStringSubmatch` result by skipping the
assignment loop); on any input the pattern does not match, every field of
the returned `DSNInfo` is the zero value, the empty string. -/
theorem c10_parse_dsn_empty_on_no_match (s : String)
    (h : goregex.findStringSubmatch sql.dsnPattern s = none) :
    sql.parseDSN s = { Driver := "", DBName := "", Address := "",
                       User := "", Protocol := "" } := by
  simp [sql.parseDSN, h]

/-- C10 witness: the string "abc" does not match the DSN pattern, and
`parseDSN` returns the all-empty `DSNInfo` on it. -/
theorem c10_parse_dsn_empty_on_no_match_witness :
    goregex.findStringSubmatch sql.dsnPattern "abc" = none ∧
    sql.parseDSN "abc" = { Driver := "", DBName := "", Address := "",
                           User := "", Protocol := "" } :=
  ⟨by decide, c10_parse_dsn_empty_on_no_match "abc" (by decide)⟩

/-- C4: an SQS publish whose underlying `SendMessage` call returns no error
but whose response carries a nil `MessageId` returns a non-nil error — a
fresh error distinct from the "failed to publish message" wrapping (it has no
wrapped cause) — and no message identifier. -/
theorem c4_nil_message_id_yields_distinct_error
    (inj : Except GoErr (List (String × String)))
    (send : sqs.SendMessageInput → Except GoErr sqs.SendMessageOutput)
    (msg : sqs.SendMessageInput)
    (h : send (sqs.sentMessage inj msg) = .ok ⟨none⟩) :
    (sqs.Publish inj send msg).err
        = some (.new "tried to publish a message but no message ID returned") ∧
    ((sqs.Publish inj send msg).err.map GoErr.isWrap) = some false ∧
    (sqs.Publish inj send msg).messageID = "" := by
  simp [sqs.Publish, h, GoErr.isWrap]

/-- C4 witness: at the concrete call with an empty carrier, queue "q1" and an
underlying client that succeeds without a message id, the hypothesis holds
and the conclusions evaluate as stated. -/
theorem c4_nil_message_id_yields_distinct_error_witness :
    (fun (_ : sqs.SendMessageInput) =>
        (.ok ⟨none⟩ : Except GoErr sqs.SendMessageOutput))
      (sqs.sentMessage (.ok []) ⟨"q1", none⟩) = .ok ⟨none⟩ ∧
    ((sqs.Publish (.ok []) (fun _ => .ok ⟨none⟩) ⟨"q1", none⟩).err
        = some (.new "tried to publish a message but no message ID returned") ∧
     ((sqs.Publish (.ok []) (fun _ => .ok ⟨none⟩) ⟨"q1", none⟩).err.map
        GoErr.isWrap) = some false ∧
     (sqs.Publish (.ok []) (fun _ => .ok ⟨none⟩) ⟨"q1", none⟩).messageID = "") :=
  ⟨rfl, c4_nil_message_id_yields_distinct_error (.ok []) (fun _ => .ok ⟨none⟩)
    ⟨"q1", none⟩ rfl⟩

/-- C5: when trace-context injection fails, the underlying publish is still
executed — SQS sends the original message untouched, AMQP publishes exactly
once — and the injection error has no influence at all on the call's outcome
(in particular it is never returned): the outcome is the same for any two
injection errors. -/
theorem c5_injection_failure_is_best_effort
    (e e' : GoErr)
    (send : sqs.SendMessageInput → Except GoErr sqs.SendMessageOutput)
    (msg : sqs.SendMessageInput) (corrID exch key : String) (mand imm : Bool)
    (pub : amqp.PublishCall → Option GoErr) (pm : amqp.Publishing) :
    (sqs.Publish (.error e) send msg).sends = [msg] ∧
    sqs.Publish (.error e) send msg = sqs.Publish (.error e') send msg ∧
    (amqp.Publish (.error e) corrID pub exch key mand imm pm).publishes.length = 1 ∧
    amqp.Publish (.error e) corrID pub exch key mand imm pm
        = amqp.Publish (.error e') corrID pub exch key mand imm pm :=
  ⟨rfl, rfl, rfl, rfl⟩

/-- C6 counterexample: the claim says that after a successful injection every
key/value pair written into the carrier appears verbatim in the outgoing
message. For AMQP the correlation-id header is stamped after injection into
the same table: with a carrier holding the pair (correlationHeaderID,
"carrier-value") and correlation id "corr-id", the outgoing message's entry
under that key is "corr-id", not the carrier's value. -/
theorem c6_correlation_header_overwrites_carrier_entry :
    lastWrite [(amqp.correlationHeaderID, "carrier-value")] amqp.correlationHeaderID
        = some "carrier-value" ∧
    (amqp.Publish (.ok [(amqp.correlationHeaderID, "carrier-value")]) "corr-id"
        (fun _ => none) "ex" "rk" false false ⟨none⟩).publishes
      = [{ exchange := "ex", key := "rk", mandatory := false, immediate := false,
           msg := ⟨some [(amqp.correlationHeaderID, "corr-id")]⟩ }] ∧
    lookupKV ((amqp.sentPublishing (.ok [(amqp.correlationHeaderID, "carrier-value")])
        "corr-id" ⟨none⟩).Headers.getD []) amqp.correlationHeaderID
      = some "corr-id" := by
  decide

/-- C6 (amended): after a successful injection, the outgoing message's
metadata field exists, every key the carrier holds appears verbatim — as a
String-typed attribute for SQS, as a header entry for AMQP — except that for
AMQP the fixed correlation-id header, stamped after injection, takes the
correlation id instead of any carrier value under that one key; and every
pre-existing attribute/header whose key the carrier does not hold is kept
unchanged (for AMQP, if its key is also not the correlation-id key). -/
theorem c6_carrier_appears_and_preexisting_kept
    (c : List (String × String))
    (send : sqs.SendMessageInput → Except GoErr sqs.SendMessageOutput)
    (msg : sqs.SendMessageInput) (corrID exch key : String) (mand imm : Bool)
    (pub : amqp.PublishCall → Option GoErr) (pm : amqp.Publishing) (k v : String) :
    (sqs.Publish (.ok c) send msg).sends = [sqs.sentMessage (.ok c) msg] ∧
    ((sqs.sentMessage (.ok c) msg).MessageAttributes).isSome = true ∧
    (lastWrite c k = some v →
      lookupKV ((sqs.sentMessage (.ok c) msg).MessageAttributes.getD []) k
        = some ⟨some sqs.attributeDataTypeString, some v⟩) ∧
    (lastWrite c k = none →
      lookupKV ((sqs.sentMessage (.ok c) msg).MessageAttributes.getD []) k
        = lookupKV (msg.MessageAttributes.getD []) k) ∧
    (amqp.Publish (.ok c) corrID pub exch key mand imm pm).publishes
        = [{ exchange := exch, key := key, mandatory := mand, immediate := imm,
             msg := amqp.sentPublishing (.ok c) corrID pm }] ∧
    ((amqp.sentPublishing (.ok c) corrID pm).Headers).isSome = true ∧
    (k ≠ amqp.correlationHeaderID → lastWrite c k = some v →
      lookupKV ((amqp.sentPublishing (.ok c) corrID pm).Headers.getD []) k = some v) ∧
    (k ≠ amqp.correlationHeaderID → lastWrite c k = none →
      lookupKV ((amqp.sentPublishing (.ok c) corrID pm).Headers.getD []) k
        = lookupKV (pm.Headers.getD []) k) ∧
    lookupKV ((amqp.sentPublishing (.ok c) corrID pm).Headers.getD [])
        amqp.correlationHeaderID = some corrID := by
  refine ⟨rfl, rfl, ?_, ?_, rfl, rfl, ?_, ?_, ?_⟩
  · intro h
    simp only [sqs.sentMessage, sqs.injectHeaders]
    have h2 := lookupKV_foldl_setKV
      (fun s => (⟨some sqs.attributeDataTypeString, some s⟩ : sqs.MessageAttributeValue))
      c (msg.MessageAttributes.getD []) k
    rw [h] at h2
    exact h2
  · intro h
    simp only [sqs.sentMessage, sqs.injectHeaders]
    have h2 := lookupKV_foldl_setKV
      (fun s => (⟨some sqs.attributeDataTypeString, some s⟩ : sqs.MessageAttributeValue))
      c (msg.MessageAttributes.getD []) k
    rw [h] at h2
    exact h2
  · intro hk h
    simp only [amqp.sentPublishing, Option.getD_some]
    rw [lookupKV_setKV, if_neg hk]
    have h2 := lookupKV_foldl_setKV (fun s => s) c (pm.Headers.getD []) k
    rw [h] at h2
    exact h2
  · intro hk h
    simp only [amqp.sentPublishing, Option.getD_some]
    rw [lookupKV_setKV, if_neg hk]
    have h2 := lookupKV_foldl_setKV (fun s => s) c (pm.Headers.getD []) k
    rw [h] at h2
    exact h2
  · simp only [amqp.sentPublishing, Option.getD_some]
    rw [lookupKV_setKV, if_pos rfl]

/-- C6 (amended) witness: at a concrete publish with carrier
[("trace-id", "t1")], a pre-existing SQS attribute under "other" and a
pre-existing AMQP header under "other", the carrier key hypotheses hold and
the conclusions evaluate as stated. -/
theorem c6_carrier_appears_and_preexisting_kept_witness :
    lastWrite [("trace-id", "t1")] "trace-id" = some "t1" ∧
    lastWrite [("trace-id", "t1")] "other" = none ∧
    ("other" : String) ≠ amqp.correlationHeaderID ∧
    lookupKV ((sqs.sentMessage (.ok [("trace-id", "t1")])
        ⟨"q1", some [("other", ⟨some "Number", some "7"⟩)]⟩).MessageAttributes.getD [])
        "trace-id" = some ⟨some sqs.attributeDataTypeString, some "t1"⟩ ∧
    lookupKV ((sqs.sentMessage (.ok [("trace-id", "t1")])
        ⟨"q1", some [("other", ⟨some "Number", some "7"⟩)]⟩).MessageAttributes.getD [])
        "other"
      = lookupKV ((⟨"q1", some [("other", ⟨some "Number", some "7"⟩)]⟩ :
          sqs.SendMessageInput).MessageAttributes.getD []) "other" ∧
    lookupKV ((amqp.sentPublishing (.ok [("trace-id", "t1")]) "corr-id"
        ⟨some [("other", "keep")]⟩).Headers.getD []) "trace-id" = some "t1" ∧
    lookupKV ((amqp.sentPublishing (.ok [("trace-id", "t1")]) "corr-id"
        ⟨some [("other", "keep")]⟩).Headers.getD []) "other"
      = lookupKV ((⟨some [("other", "keep")]⟩ : amqp.Publishing).Headers.getD []) "other" ∧
    lookupKV ((amqp.sentPublishing (.ok [("trace-id", "t1")]) "corr-id"
        ⟨some [("other", "keep")]⟩).Headers.getD []) amqp.correlationHeaderID
      = some "corr-id" := by
  have h := c6_carrier_appears_and_preexisting_kept [("trace-id", "t1")]
    (fun _ => .ok ⟨some "id"⟩) ⟨"q1", some [("other", ⟨some "Number", some "7"⟩)]⟩
    "corr-id" "ex" "rk" false false (fun _ => none) ⟨some [("other", "keep")]⟩
    "trace-id" "t1"
  have h2 := c6_carrier_appears_and_preexisting_kept [("trace-id", "t1")]
    (fun _ => .ok ⟨some "id"⟩) ⟨"q1", some [("other", ⟨some "Number", some "7"⟩)]⟩
    "corr-id" "ex" "rk" false false (fun _ => none) ⟨some [("other", "keep")]⟩
    "other" "t1"
  refine ⟨by decide, by decide, by decide, ?_, ?_, ?_, ?_, ?_⟩
  · exact h.2.2.1 (by decide)
  · exact h2.2.2.2.1 (by decide)
  · exact h.2.2.2.2.2.2.1 (by decide) (by decide)
  · exact h2.2.2.2.2.2.2.2.1 (by decide) (by decide)
  · exact h.2.2.2.2.2.2.2.2

/-- C8: constructing the SQS publisher with a nil client handle fails with the
configuration error "missing api", returning the zero publisher; constructing
the AMQP publisher with an empty URL fails with "url is required" for any
option functions and any dialing behaviour; in all these failures no span is
started and no metric is observed. -/
theorem c8_constructors_reject_invalid_input :
    ((sqs.New none).err = some (.new "missing api") ∧
     (sqs.New none).publisher = ⟨none⟩ ∧
     (sqs.New none).spansStarted = [] ∧
     (sqs.New none).observations = []) ∧
    ∀ (dial : Option amqp.Config → Except GoErr amqp.Connection)
      (openCh : amqp.Connection → Except GoErr amqp.Channel)
      (connClose : amqp.Connection → Option GoErr) (oo : List amqp.OptionFunc),
      (amqp.New dial openCh connClose "" oo).err = some (.new "url is required") ∧
      (amqp.New dial openCh connClose "" oo).publisher = none ∧
      (amqp.New dial openCh connClose "" oo).spansStarted = [] ∧
      (amqp.New dial openCh connClose "" oo).observations = [] := by
  refine ⟨⟨rfl, rfl, rfl, rfl⟩, fun dial openCh connClose oo => ?_⟩
  simp [amqp.New]

/-- C9: whenever SQS `Publish` returns a non-nil error — be it a send failure
or a missing message identifier — the returned messageID is the empty string;
equivalently, every call returns a nil error or an empty identifier, so a
non-empty identifier only comes with a nil error. -/
theorem c9_message_id_empty_unless_success
    (inj : Except GoErr (List (String × String)))
    (send : sqs.SendMessageInput → Except GoErr sqs.SendMessageOutput)
    (msg : sqs.SendMessageInput) :
    (sqs.Publish inj send msg).err = none ∨
    (sqs.Publish inj send msg).messageID = "" := by
  rcases h : send (sqs.sentMessage inj msg) with e | out
  · right
    simp [sqs.Publish, h]
  · rcases hid : out.MessageId with _ | mid
    · right
      simp [sqs.Publish, h, hid]
    · left
      simp [sqs.Publish, h, hid]
